import Mathlib

set_option maxRecDepth 8000

namespace YtApp

/-- The characters of a string literal, used to model Python strings as lists of characters. -/
def chars (s : String) : List Char := s.toList

/-- Whitespace characters removed by Python str.strip with no argument. -/
def isPySpace (c : Char) : Bool :=
  c = ' ' || c = '\t' || c = '\n' || c = '\r' || c = '\x0b' || c = '\x0c'

/-- Models Python str.strip: drop leading and trailing whitespace. -/
def strip (l : List Char) : List Char :=
  ((l.dropWhile isPySpace).reverse.dropWhile isPySpace).reverse

/-- A parsed URL as seen through QUrl: a validity flag and the (lowercased) host.
This models the external QUrl collaborator used by app.py. -/
structure ParsedUrl where
  valid : Bool
  host : List Char
deriving DecidableEq

/-- Scans for the scheme separator "://"; returns the remainder after it, if present.
Models how QUrl splits off the authority component of an absolute URL. -/
def afterSchemeSep : List Char → Option (List Char)
  | [] => none
  | c :: rest =>
    if c = ':' ∧ rest.take 2 = chars "//" then some (rest.drop 2)
    else afterSchemeSep rest

/-- Characters that terminate the host component of a URL authority. -/
def hostEndChar (c : Char) : Bool := c = '/' || c = '?' || c = '#' || c = ':'

/-- Models QUrl(url): a string with a scheme separator has the authority up to the next
delimiter as its (lowercased) host; a string without one parses as a relative URL, which
QUrl considers valid but which has an empty host. -/
def parseQUrl (url : List Char) : ParsedUrl :=
  match afterSchemeSep url with
  | some rest =>
    { valid := true, host := (rest.takeWhile (fun c => !(hostEndChar c))).map Char.toLower }
  | none => { valid := true, host := [] }

/-- The allowed YouTube hosts of app.py (list youtube_domains, lines 442-445). -/
def youtube_domains : List (List Char) :=
  [chars "youtube.com", chars "www.youtube.com", chars "m.youtube.com",
   chars "youtu.be", chars "www.youtu.be"]

/-- Embeds _is_valid_youtube_url (app.py lines 436-446): the host must equal one of the
allowed domains, or end with "." followed by one of the allowed domains that does not
start with "www". -/
def is_valid_youtube_url (url : List Char) : Bool :=
  let qurl := parseQUrl url
  qurl.valid &&
    (youtube_domains.contains qurl.host ||
      (youtube_domains.filter (fun d => !((chars "www").isPrefixOf d))).any
        (fun d => ('.' :: d).isSuffixOf qurl.host))

/-- Follows the spec's words: a string is accepted only if it parses as a well-formed URL
whose host exactly equals, or is a dot-suffixed subdomain of, one of the five allowed
YouTube hosts. -/
def is_valid_youtube_url_spec (url : List Char) : Bool :=
  let qurl := parseQUrl url
  qurl.valid &&
    (youtube_domains.contains qurl.host ||
      youtube_domains.any (fun d => ('.' :: d).isSuffixOf qurl.host))

/-- Log levels of the log_message signal (message, type) of YtdlpWorker. -/
inductive Level
  | info
  | warning
  | error
deriving DecidableEq

/-- Signals emitted by YtdlpWorker (app.py lines 26-34), restricted to those the download
path uses: log_message, progress_update, download_complete, download_error and
operation_finished. -/
inductive Signal
  | logMessage (msg : List Char) (lvl : Level)
  | progressUpdate (percent : Nat)
  | downloadComplete
  | downloadError (msg : List Char)
  | operationFinished
deriving DecidableEq

/-- The status field of a raw yt-dlp progress callback dictionary. -/
inductive RawStatus
  | downloading
  | finished
  | error
deriving DecidableEq

/-- A raw yt-dlp progress callback dictionary, restricted to the keys _progress_hook
reads. Absent keys are none. Byte counts are naturals (the model uses exact
arithmetic where the Python code divides floats). -/
structure RawProgress where
  status : RawStatus
  downloaded_bytes : Option Nat
  total_bytes : Option Nat
  total_bytes_estimate : Option Nat
deriving DecidableEq

/-- Models the Python expression d.get(total_bytes) or d.get(total_bytes_estimate):
a missing or zero (falsy) exact total falls back to the estimate. -/
def effectiveTotal (d : RawProgress) : Option Nat :=
  match d.total_bytes with
  | some n => if n = 0 then d.total_bytes_estimate else some n
  | none => d.total_bytes_estimate

/-- Embeds YtdlpWorker._progress_hook (app.py lines 40-50). The percent computation
int((downloaded / total) * 100) is modelled exactly as the floor 100 * downloaded / total
(Python computes it in floating point before truncating). -/
def progress_hook (d : RawProgress) : List Signal :=
  match d.status with
  | RawStatus.downloading =>
    match effectiveTotal d with
    | some total_bytes =>
      if total_bytes = 0 then []
      else [Signal.progressUpdate (d.downloaded_bytes.getD 0 * 100 / total_bytes)]
    | none => []
  | RawStatus.finished =>
    [Signal.progressUpdate 100,
     Signal.logMessage (chars "Download finished. Processing file(s)...") Level.info]
  | RawStatus.error =>
    [Signal.downloadError (chars "yt-dlp encountered an error during download or post-processing.")]

/-- The digits of a natural number, as Python str renders a nonnegative int. -/
def natToChars (n : Nat) : List Char := Nat.toDigits 10 n

/-- Python str of an int: a minus sign followed by the digits when negative. -/
def intToChars (i : Int) : List Char :=
  if i < 0 then '-' :: natToChars i.natAbs else natToChars i.natAbs

/-- A nonempty all-digit character list parsed as a natural number. -/
def parseDigits (l : List Char) : Option Nat :=
  if l ≠ [] ∧ l.all Char.isDigit
  then some (l.foldl (fun acc c => acc * 10 + (c.toNat - 48)) 0)
  else none

/-- Models the CPython builtin int() on a string: surrounding whitespace is ignored and
an optional sign precedes the digits; anything else raises ValueError (none here).
Python's tolerance for underscores between digits and non-ASCII digits is not modelled;
the quality labels of the app contain neither. -/
def pyIntOpt (l : List Char) : Option Int :=
  match strip l with
  | '+' :: rest => (parseDigits rest).map (fun n => (n : Int))
  | '-' :: rest => (parseDigits rest).map (fun n => -(n : Int))
  | t => (parseDigits t).map (fun n => (n : Int))

/-- Models Python str.upper for the ASCII strings the app uses. -/
def upperChars (l : List Char) : List Char := l.map Char.toUpper

/-- Embeds the format selector computation of YtdlpWorker.download_video (app.py lines
79-94), returning the selector together with the warning log emitted on an unparsable
quality label. quality.replace with 'p' and the empty string removes every 'p'. -/
def format_selector (file_format quality : List Char) : List Char × List Signal :=
  if file_format = chars "mp3" then (chars "bestaudio/best", [])
  else if quality = chars "Best" then (chars "bestvideo*+bestaudio/best", [])
  else
    match pyIntOpt (quality.filter (fun c => c ≠ 'p')) with
    | some height_int =>
      (chars "bestvideo[height<=" ++ intToChars height_int ++ chars "]+bestaudio/best", [])
    | none =>
      (chars "bestvideo*+bestaudio/best",
       [Signal.logMessage (chars "Invalid quality selected: " ++ quality ++
          chars ". Falling back to \x27Best\x27.") Level.warning])

/-- The video-info dictionary returned by the metadata fetch, restricted to the keys
app.py reads. Absent keys are none. -/
structure VideoInfo where
  webpage_url : Option (List Char)
  title : Option (List Char)
  uploader : Option (List Char)
  duration : Option Nat
  view_count : Option Nat
  thumbnail : Option (List Char)
deriving DecidableEq

/-- Models the Python truthiness test video_info and video_info.get(thumbnail): the info
dictionary must be present and hold a nonempty thumbnail string. -/
def thumb_available : Option VideoInfo → Bool
  | some info =>
    match info.thumbnail with
    | some t => !t.isEmpty
    | none => false
  | none => false

/-- A yt-dlp postprocessor entry as appended by download_video. ffmpegExtractAudio
carries preferredcodec mp3 and preferredquality 192 in the source dictionary. -/
inductive PP
  | ffmpegExtractAudio
  | ffmpegMetadata
  | embedThumbnail
deriving DecidableEq

/-- The ydl_opts dictionary built by download_video (app.py lines 100-120), restricted to
the option keys it sets. -/
structure YdlOpts where
  format : List Char
  outtmpl : List Char
  noplaylist : Bool
  merge_output_format : Option (List Char)
  nocheckcertificate : Bool
  postprocessors : List PP
deriving DecidableEq

/-- Models POSIX os.path.join for the two-argument call in download_video. -/
def pathJoin (a b : List Char) : List Char :=
  match b with
  | '/' :: _ => b
  | _ =>
    if a = [] then b
    else if a.getLast? = some '/' then a ++ b else a ++ '/' :: b

/-- Embeds the postprocessor construction of download_video (app.py lines 109-120),
returning the postprocessor list together with the log messages emitted while building
it. -/
def build_postprocessors (file_format : List Char) (embed_metadata : Bool)
    (video_info : Option VideoInfo) : List PP × List Signal :=
  let base := if file_format = chars "mp3" then [PP.ffmpegExtractAudio] else []
  if embed_metadata then
    if thumb_available video_info then
      (base ++ [PP.ffmpegMetadata, PP.embedThumbnail],
       [Signal.logMessage (chars "Attempting to embed thumbnail...") Level.info])
    else
      (base ++ [PP.ffmpegMetadata],
       [Signal.logMessage (chars "Warning: Cannot embed thumbnail as no video info or thumbnail URL was available.") Level.warning])
  else (base, [])

/-- The outcome of the collaborator call ydl.download: success, a yt_dlp DownloadError,
or any other exception, each carrying its message. -/
inductive DlOutcome
  | success
  | dlError (msg : List Char)
  | unexpected (msg : List Char)
deriving DecidableEq

/-- The signals emitted after ydl.download returns or raises (app.py lines 125-130). -/
def terminal_signals : DlOutcome → List Signal
  | DlOutcome.success => [Signal.downloadComplete]
  | DlOutcome.dlError m =>
    [Signal.downloadError (chars "Download error: " ++ m ++
       chars "\nPossible issues: Invalid URL, geo-restriction, or missing FFmpeg/dependencies.")]
  | DlOutcome.unexpected m =>
    [Signal.downloadError (chars "An unexpected error occurred: " ++ m)]

/-- The signals produced by the progress hook over the raw callbacks delivered during
the collaborator call, in order. -/
def hookSignals : List RawProgress → List Signal
  | [] => []
  | d :: rest => progress_hook d ++ hookSignals rest

/-- Embeds YtdlpWorker.download_video (app.py lines 76-132). The opaque ydl.download
call is modelled by the raw progress callbacks it delivers and its outcome; the result
is the built ydl_opts dictionary together with the full ordered signal trace: selector
warning, postprocessor logs, the starting message, the hook signals, the terminal
complete or error signal, and finally operation_finished from the finally block. -/
def download_video (url output_path file_format quality : List Char)
    (is_playlist use_custom_filename : Bool) (filename_template : List Char)
    (embed_metadata : Bool) (video_info : Option VideoInfo)
    (hooks : List RawProgress) (outcome : DlOutcome) : YdlOpts × List Signal :=
  let sel := format_selector file_format quality
  let outtmpl := if use_custom_filename ∧ strip filename_template ≠ []
                 then filename_template else chars "%(title)s.%(ext)s"
  let pp := build_postprocessors file_format embed_metadata video_info
  let opts : YdlOpts :=
    { format := sel.1
      outtmpl := pathJoin output_path outtmpl
      noplaylist := !is_playlist
      merge_output_format := if file_format ≠ chars "mp3" then some file_format else none
      nocheckcertificate := true
      postprocessors := pp.1 }
  (opts,
   sel.2 ++ pp.2 ++
   [Signal.logMessage (chars "Starting download of " ++ upperChars file_format ++ chars "...") Level.info] ++
   hookSignals hooks ++ terminal_signals outcome ++ [Signal.operationFinished])

/-- The interactive-thread state of YouTubeDownloaderApp: the widget texts and flags the
orchestration reads and writes. uiEnabled is the single enabled and disabled surface
toggled by set_ui_state; the code presents the Idle state exactly as uiEnabled true.
timer is the pending debounce interval of _fetch_info_timer, none when stopped. -/
structure AppState where
  urlText : List Char
  outputText : List Char
  formatSel : List Char
  qualitySel : List Char
  playlistChecked : Bool
  customFilenameChecked : Bool
  filenameTemplate : List Char
  embedMetadataChecked : Bool
  uiEnabled : Bool
  timer : Option Nat
  current_video_info : Option VideoInfo
  titleText : List Char
  uploaderText : List Char
  durationText : List Char
  viewsText : List Char
  thumbText : List Char
  progressValue : Nat
deriving DecidableEq

/-- Embeds clear_preview (app.py lines 697-704). -/
def clear_preview (s : AppState) : AppState :=
  { s with
    titleText := chars "N/A"
    uploaderText := chars "N/A"
    durationText := chars "N/A"
    viewsText := chars "N/A"
    thumbText := chars "No thumbnail available"
    current_video_info := none }

/-- The debounce interval of _fetch_info_timer (app.py line 422). -/
def debounceMs : Nat := 700

/-- Embeds _schedule_fetch_info (app.py lines 427-434): a valid URL restarts the
single-shot debounce timer; an invalid one stops it and clears the preview. -/
def schedule_fetch_info (s : AppState) : AppState :=
  let url_text := strip s.urlText
  if is_valid_youtube_url url_text then { s with timer := some debounceMs }
  else clear_preview { s with timer := none }

/-- Side effects requested of collaborators by the interactive thread: log lines,
blocking message boxes, directory creation, and dispatches to the worker. -/
inductive UiAction
  | logMsg (msg : List Char) (lvl : Level)
  | criticalBox (title msg : List Char)
  | mkdirParents (path : List Char)
  | fetchInfo (url : List Char)
  | dispatchDownload (url output_path file_format quality : List Char)
      (is_playlist use_custom_filename : Bool) (filename_template : List Char)
      (embed_metadata : Bool) (video_info : Option VideoInfo)
deriving DecidableEq

/-- Embeds _start_fetch_info_worker (app.py lines 719-729): the fetch is suppressed when
the stripped URL fails validation or equals the webpage_url of the currently loaded
metadata; otherwise the preview is cleared, the UI disabled and the fetch dispatched. -/
def start_fetch_info_worker (s : AppState) : AppState × List UiAction :=
  let url := strip s.urlText
  if !(is_valid_youtube_url url) ||
     (match s.current_video_info with
      | some info => info.webpage_url.getD [] == url
      | none => false) then
    (s, [])
  else
    ({ clear_preview s with uiEnabled := false },
     [UiAction.logMsg (chars "Fetching info for: " ++ url ++ chars "...") Level.info,
      UiAction.fetchInfo url])

/-- The filesystem answers observed by _start_download_worker: whether the output path is
already a directory, and the OSError message of mkdir when creation fails (none when it
succeeds). -/
structure FsOracle where
  isDir : Bool
  mkdirError : Option (List Char)
deriving DecidableEq

/-- The tail of _start_download_worker after the directory phase (app.py lines 818-834):
log, disable the UI, reset the progress display and dispatch download_video with the
current widget selections. -/
def download_dispatch (s : AppState) (url output_path : List Char) :
    AppState × List UiAction :=
  ({ s with uiEnabled := false, progressValue := 0 },
   [UiAction.logMsg (chars "Preparing download for: " ++ url) Level.info,
    UiAction.dispatchDownload url output_path s.formatSel s.qualitySel
      s.playlistChecked s.customFilenameChecked s.filenameTemplate
      s.embedMetadataChecked s.current_video_info])

/-- Embeds _start_download_worker (app.py lines 794-834): empty URL, empty output path
and invalid URL are rejected with a blocking message box; a missing output directory is
created recursively, with a creation failure rejecting the request; otherwise the
download is dispatched. The handler contains no busy check. -/
def start_download_worker (s : AppState) (fs : FsOracle) : AppState × List UiAction :=
  let url := strip s.urlText
  let output_path := strip s.outputText
  if url = [] then
    (s, [UiAction.criticalBox (chars "Error") (chars "Please enter a YouTube URL!")])
  else if output_path = [] then
    (s, [UiAction.criticalBox (chars "Error") (chars "Please select an output path!")])
  else if !(is_valid_youtube_url url) then
    (s, [UiAction.criticalBox (chars "Error")
          (chars "The entered URL does not appear to be a valid YouTube URL.")])
  else if fs.isDir then download_dispatch s url output_path
  else
    match fs.mkdirError with
    | some e =>
      (s, [UiAction.mkdirParents output_path,
           UiAction.criticalBox (chars "Error") (chars "Could not create output directory: " ++ e),
           UiAction.logMsg (chars "Error creating directory: " ++ e) Level.error])
    | none =>
      let r := download_dispatch s url output_path
      (r.1, UiAction.mkdirParents output_path ::
            UiAction.logMsg (chars "Created output directory: " ++ output_path) Level.info :: r.2)

/-- Models a user click on the Download button: Qt delivers the clicked signal, and so
invokes _start_download_worker, only while the button is enabled; set_ui_state disables
it (with every other control except the log and progress displays) during any
operation. -/
def click_download_button (s : AppState) (fs : FsOracle) : AppState × List UiAction :=
  if s.uiEnabled then start_download_worker s fs else (s, [])

/-- Recognizes the dispatchDownload action. -/
def isDispatchDownload : UiAction → Bool
  | UiAction.dispatchDownload _ _ _ _ _ _ _ _ _ => true
  | _ => false

/-- Models the signal-slot connections of app.py lines 192-200 on the interactive
state: progress_update drives the progress display, download_complete forces it to 100,
and operation_finished re-enables the UI through set_ui_state. -/
def applySignal (s : AppState) : Signal → AppState
  | Signal.logMessage _ _ => s
  | Signal.progressUpdate p => { s with progressValue := p }
  | Signal.downloadComplete => { s with progressValue := 100 }
  | Signal.downloadError _ => s
  | Signal.operationFinished => { s with uiEnabled := true }

/-- Two-digit zero padding, as Python str(timedelta) pads minutes and seconds. -/
def pad2 (n : Nat) : List Char :=
  if n < 10 then '0' :: natToChars n else natToChars n

/-- Models Python str(datetime.timedelta(seconds=n)) for a natural number of seconds:
unpadded hours, padded minutes and seconds, preceded by a day count when n reaches a
day. -/
def timedelta_str (n : Nat) : List Char :=
  let days := n / 86400
  let rem := n % 86400
  let core := natToChars (rem / 3600) ++ ':' ::
    (pad2 (rem % 3600 / 60) ++ ':' :: pad2 (rem % 60))
  if days = 0 then core
  else natToChars days ++ (if days = 1 then chars " day, " else chars " days, ") ++ core

/-- Models Python str.split on a single colon separator. -/
def splitColon : List Char → List (List Char)
  | [] => [[]]
  | c :: rest =>
    if c = ':' then [] :: splitColon rest
    else
      match splitColon rest with
      | [] => [[c]]
      | h :: t => (c :: h) :: t

/-- Embeds the duration rendering of _display_video_info (app.py lines 738-748): a
missing duration displays N/A; otherwise str(timedelta) is split on colons, and a
three-part result whose hours part is exactly the single digit zero drops that part. -/
def duration_display : Option Nat → List Char
  | none => chars "N/A"
  | some duration_seconds =>
    let duration_str := timedelta_str duration_seconds
    let parts := splitColon duration_str
    if parts.length = 3 ∧ parts.headD [] = chars "0"
    then List.intercalate (chars ":") (parts.drop 1)
    else duration_str

/-- Follows the spec's words: the H:MM:SS rendering of the duration with a single
leading zero-hours component stripped. -/
def hms_render_spec (n : Nat) : List Char :=
  if n / 3600 = 0 then pad2 (n % 3600 / 60) ++ ':' :: pad2 (n % 60)
  else natToChars (n / 3600) ++ ':' :: (pad2 (n % 3600 / 60) ++ ':' :: pad2 (n % 60))

/-- A concrete busy interactive state: the UI is disabled by a running operation while
the widgets hold a valid URL and output path. -/
def busyState : AppState :=
  { urlText := chars "https://www.youtube.com/watch?v=abc"
    outputText := chars "/tmp/out"
    formatSel := chars "mp4"
    qualitySel := chars "Best"
    playlistChecked := false
    customFilenameChecked := false
    filenameTemplate := chars ""
    embedMetadataChecked := false
    uiEnabled := false
    timer := none
    current_video_info := none
    titleText := chars "N/A"
    uploaderText := chars "N/A"
    durationText := chars "N/A"
    viewsText := chars "N/A"
    thumbText := chars "No thumbnail available"
    progressValue := 37 }

/-- A concrete idle interactive state with a valid URL and output path. -/
def readyState : AppState :=
  { busyState with uiEnabled := true, progressValue := 0 }

/-- A filesystem where the output path already exists as a directory. -/
def dirOkFs : FsOracle := { isDir := true, mkdirError := none }

/-- A metadata snapshot whose canonical webpage_url matches busyState's URL text. -/
def loadedInfo : VideoInfo :=
  { webpage_url := some (chars "https://www.youtube.com/watch?v=abc")
    title := none
    uploader := none
    duration := none
    view_count := none
    thumbnail := none }

/-- A concrete idle state whose loaded metadata corresponds to the typed URL. -/
def loadedState : AppState :=
  { busyState with uiEnabled := true, current_video_info := some loadedInfo }

theorem filter_www_eq :
    youtube_domains.filter (fun d => !((chars "www").isPrefixOf d)) =
      [chars "youtube.com", chars "m.youtube.com", chars "youtu.be"] := by decide

theorem suffix_dot_www_youtube :
    ('.' :: chars "youtube.com") <:+ ('.' :: chars "www.youtube.com") :=
  ⟨chars ".www", by decide⟩

theorem suffix_dot_www_youtu_be :
    ('.' :: chars "youtu.be") <:+ ('.' :: chars "www.youtu.be") :=
  ⟨chars ".www", by decide⟩

theorem any_www_redundant (h : List Char) :
    ([chars "youtube.com", chars "m.youtube.com", chars "youtu.be"].any
        (fun d => ('.' :: d).isSuffixOf h)) =
      (youtube_domains.any (fun d => ('.' :: d).isSuffixOf h)) := by
  rw [Bool.eq_iff_iff]
  simp only [youtube_domains, List.any_cons, List.any_nil, Bool.or_eq_true,
    Bool.false_eq_true, or_false, List.isSuffixOf_iff_suffix]
  constructor
  · rintro (h1 | h3 | h4)
    · exact Or.inl h1
    · exact Or.inr (Or.inr (Or.inl h3))
    · exact Or.inr (Or.inr (Or.inr (Or.inl h4)))
  · rintro (h1 | h2 | h3 | h4 | h5)
    · exact Or.inl h1
    · exact Or.inl (suffix_dot_www_youtube.trans h2)
    · exact Or.inr (Or.inl h3)
    · exact Or.inr (Or.inr h4)
    · exact Or.inr (Or.inr (suffix_dot_www_youtu_be.trans h5))

/-- C1: for every string, the validator of app.py accepts iff the string parses as a URL
whose host exactly equals, or is a dot-suffixed subdomain of, one of the five allowed
YouTube hosts; in particular it rejects URLs with host youtube.com.evil.com and accepts
https://m.youtube.com/watch?v=x. -/
theorem url_validator_matches_spec :
    (∀ url : List Char, is_valid_youtube_url url = is_valid_youtube_url_spec url) ∧
    is_valid_youtube_url (chars "https://youtube.com.evil.com/watch?v=x") = false ∧
    is_valid_youtube_url (chars "youtube.com.evil.com") = false ∧
    is_valid_youtube_url (chars "https://m.youtube.com/watch?v=x") = true := by
  refine ⟨?_, by decide, by decide, by decide⟩
  intro url
  simp only [is_valid_youtube_url, is_valid_youtube_url_spec, filter_www_eq,
    any_www_redundant]

/-- C2 (amended): for a downloading callback with a known non-zero total (exact, or the
estimate when the exact total is absent or zero) the hook emits exactly one percent
event equal to floor(100 * downloaded / total) with no clamping; with no known total it
emits nothing; a finished callback emits percent 100 followed by an info log. -/
theorem progress_hook_characterization :
    ∀ d : RawProgress,
    (d.status = RawStatus.downloading →
      (∀ t, effectiveTotal d = some t → t ≠ 0 →
        progress_hook d = [Signal.progressUpdate (d.downloaded_bytes.getD 0 * 100 / t)]) ∧
      (effectiveTotal d = none → progress_hook d = []) ∧
      (effectiveTotal d = some 0 → progress_hook d = [])) ∧
    (d.status = RawStatus.finished →
      progress_hook d = [Signal.progressUpdate 100,
        Signal.logMessage (chars "Download finished. Processing file(s)...") Level.info]) := by
  intro d
  constructor
  · intro hs
    refine ⟨?_, ?_, ?_⟩
    · intro t het hne
      simp [progress_hook, hs, het, hne]
    · intro het
      simp [progress_hook, hs, het]
    · intro het
      simp [progress_hook, hs, het]
  · intro hs
    simp [progress_hook, hs]

/-- C2 witness: the spec's own example, 50 of 200 bytes gives percent 25. -/
theorem progress_hook_characterization_witness :
    effectiveTotal ⟨RawStatus.downloading, some 50, some 200, none⟩ = some 200 ∧
    progress_hook ⟨RawStatus.downloading, some 50, some 200, none⟩ =
      [Signal.progressUpdate 25] :=
  ⟨rfl, ((progress_hook_characterization ⟨RawStatus.downloading, some 50, some 200, none⟩).1
    rfl).1 200 rfl (by decide)⟩

/-- C2 counterexample: with 200 of 100 bytes downloaded the hook emits percent 200,
above 100, so the emitted value is not clamped to the range 0 to 100 as claimed. -/
theorem progress_hook_no_clamp_counterexample :
    progress_hook ⟨RawStatus.downloading, some 200, some 100, none⟩ =
      [Signal.progressUpdate 200] ∧ ¬(200 ≤ 100) :=
  ⟨rfl, by decide⟩

/-- C3 (amended): a download request cannot be issued while an operation is running,
because set_ui_state disables the Download button and a disabled button delivers no
click; the handler itself performs no busy check and emits no Busy error, so a request
reaching it while the UI is disabled is dispatched, not rejected. -/
theorem busy_click_suppressed :
    ∀ (s : AppState) (fs : FsOracle), s.uiEnabled = false →
      click_download_button s fs = (s, []) := by
  intro s fs h
  simp [click_download_button, h]

/-- C3 witness: a click while the concrete busy state is active does nothing. -/
theorem busy_click_suppressed_witness :
    busyState.uiEnabled = false ∧
    click_download_button busyState dirOkFs = (busyState, []) :=
  ⟨rfl, busy_click_suppressed busyState dirOkFs rfl⟩

/-- C3 counterexample: invoked while the state is busy (UI disabled) with a valid URL
and output path, the handler dispatches a second download worker instead of rejecting
the request with a Busy error, and no Busy rejection exists in its action vocabulary. -/
theorem busy_dispatch_counterexample :
    busyState.uiEnabled = false ∧
    (start_download_worker busyState dirOkFs).2.any isDispatchDownload = true ∧
    ¬((start_download_worker busyState dirOkFs).2.any isDispatchDownload = false ∧
      (start_download_worker busyState dirOkFs).1 = busyState) := by
  refine ⟨rfl, by decide, ?_⟩
  intro h
  cases (by decide : (start_download_worker busyState dirOkFs).2.any isDispatchDownload = true) ▸ h.1

/-- C5: a debounce fire whose stripped URL text fails validation, or equals the
webpage_url of the currently loaded metadata, is suppressed: no fetch is dispatched and
the state (metadata and preview included) is unchanged, so re-firing for the loaded URL
is idempotent. -/
theorem fetch_suppressed_on_same_or_invalid_url :
    ∀ s : AppState,
      (is_valid_youtube_url (strip s.urlText) = false ∨
        (∃ info, s.current_video_info = some info ∧
          info.webpage_url.getD [] = strip s.urlText)) →
      start_fetch_info_worker s = (s, []) := by
  intro s h
  rcases h with h | ⟨info, hi, hw⟩
  · simp [start_fetch_info_worker, h]
  · simp [start_fetch_info_worker, hi, hw]

/-- C5 witness: with metadata loaded for the currently typed canonical URL, the fire is
suppressed. -/
theorem fetch_suppressed_witness :
    loadedState.current_video_info = some loadedInfo ∧
    loadedInfo.webpage_url.getD [] = strip loadedState.urlText ∧
    start_fetch_info_worker loadedState = (loadedState, []) :=
  ⟨rfl, by decide,
   fetch_suppressed_on_same_or_invalid_url loadedState (Or.inr ⟨loadedInfo, rfl, by decide⟩)⟩

/-- C7: a URL change whose stripped text fails validation stops any pending debounce
timer and clears the metadata and preview immediately; a text that passes validation
restarts the debounce timer at its 700 ms interval instead. -/
theorem url_changed_invalid_clears_and_cancels :
    ∀ s : AppState,
      (is_valid_youtube_url (strip s.urlText) = false →
        schedule_fetch_info s = clear_preview { s with timer := none } ∧
        (schedule_fetch_info s).timer = none ∧
        (schedule_fetch_info s).current_video_info = none) ∧
      (is_valid_youtube_url (strip s.urlText) = true →
        schedule_fetch_info s = { s with timer := some debounceMs }) := by
  intro s
  constructor
  · intro h
    refine ⟨?_, ?_, ?_⟩ <;> simp [schedule_fetch_info, h, clear_preview]
  · intro h
    simp [schedule_fetch_info, h]

/-- C7 witness: the concrete busy state holds a valid URL, so a change to it re-arms the
debounce timer. -/
theorem url_changed_witness :
    is_valid_youtube_url (strip busyState.urlText) = true ∧
    schedule_fetch_info busyState = { busyState with timer := some debounceMs } :=
  ⟨by decide, (url_changed_invalid_clears_and_cancels busyState).2 (by decide)⟩

/-- C4: the selector is bestaudio/best for mp3; the unrestricted selector for quality
Best; bestvideo[height<=H]+bestaudio/best with H the integer parsed from the label with
its p characters removed; and on an unparsable label the unrestricted selector together
with a warning; the selector is what download_video places in the options passed to the
collaborator. -/
theorem format_selector_characterization :
    (∀ q, format_selector (chars "mp3") q = (chars "bestaudio/best", [])) ∧
    (∀ ff, ff ≠ chars "mp3" →
      format_selector ff (chars "Best") = (chars "bestvideo*+bestaudio/best", [])) ∧
    (∀ ff q h, ff ≠ chars "mp3" → q ≠ chars "Best" →
      pyIntOpt (q.filter (fun c => c ≠ 'p')) = some h →
      format_selector ff q =
        (chars "bestvideo[height<=" ++ intToChars h ++ chars "]+bestaudio/best", [])) ∧
    (∀ ff q, ff ≠ chars "mp3" → q ≠ chars "Best" →
      pyIntOpt (q.filter (fun c => c ≠ 'p')) = none →
      format_selector ff q = (chars "bestvideo*+bestaudio/best",
        [Signal.logMessage (chars "Invalid quality selected: " ++ q ++
           chars ". Falling back to \x27Best\x27.") Level.warning])) ∧
    format_selector (chars "mp4") (chars "720p") =
      (chars "bestvideo[height<=720]+bestaudio/best", []) ∧
    format_selector (chars "mp4") (chars "abc") =
      (chars "bestvideo*+bestaudio/best",
       [Signal.logMessage
         (chars "Invalid quality selected: abc. Falling back to \x27Best\x27.")
         Level.warning]) ∧
    ∀ (url output_path file_format quality tmpl : List Char) (is_playlist uc em : Bool)
      (vi : Option VideoInfo) (hooks : List RawProgress) (oc : DlOutcome),
      (download_video url output_path file_format quality is_playlist uc tmpl em
        vi hooks oc).1.format = (format_selector file_format quality).1 := by
  refine ⟨?_, ?_, ?_, ?_, by decide, by decide, ?_⟩
  · intro q
    simp [format_selector]
  · intro ff hff
    simp [format_selector, hff]
  · intro ff q h hff hq hp
    simp only [ne_eq, decide_not] at hp
    simp [format_selector, hff, hq, hp]
  · intro ff q hff hq hp
    simp only [ne_eq, decide_not] at hp
    simp [format_selector, hff, hq, hp]
  · intro url output_path file_format quality tmpl is_playlist uc em vi hooks oc
    rfl

/-- C4 witness: mp4 at quality Best selects the unrestricted selector. -/
theorem format_selector_characterization_witness :
    chars "mp4" ≠ chars "mp3" ∧
    format_selector (chars "mp4") (chars "Best") = (chars "bestvideo*+bestaudio/best", []) :=
  ⟨by decide, format_selector_characterization.2.1 (chars "mp4") (by decide)⟩

/-- C8: once the empty-field and URL-shape guards pass, a missing output directory is
created recursively before the download is dispatched; a creation failure rejects the
request synchronously with an error notice and an error log, dispatching nothing and
leaving the state unchanged. -/
theorem output_dir_create_before_dispatch :
    ∀ (s : AppState) (fs : FsOracle) (e : List Char),
      strip s.urlText ≠ [] →
      strip s.outputText ≠ [] →
      is_valid_youtube_url (strip s.urlText) = true →
      (fs.isDir = false → fs.mkdirError = some e →
        start_download_worker s fs =
          (s, [UiAction.mkdirParents (strip s.outputText),
               UiAction.criticalBox (chars "Error")
                 (chars "Could not create output directory: " ++ e),
               UiAction.logMsg (chars "Error creating directory: " ++ e) Level.error])) ∧
      (fs.isDir = false → fs.mkdirError = none →
        start_download_worker s fs =
          ((download_dispatch s (strip s.urlText) (strip s.outputText)).1,
           UiAction.mkdirParents (strip s.outputText) ::
           UiAction.logMsg (chars "Created output directory: " ++ strip s.outputText)
             Level.info ::
           (download_dispatch s (strip s.urlText) (strip s.outputText)).2)) := by
  intro s fs e hurl hout hvalid
  constructor
  · intro hdir herr
    simp [start_download_worker, hurl, hout, hvalid, hdir, herr]
  · intro hdir herr
    simp [start_download_worker, hurl, hout, hvalid, hdir, herr]

/-- C8 witness: from the concrete ready state, a failing mkdir rejects the request with
the error notice and no dispatch. -/
theorem output_dir_create_before_dispatch_witness :
    strip readyState.urlText ≠ [] ∧
    start_download_worker readyState { isDir := false, mkdirError := some (chars "denied") } =
      (readyState,
       [UiAction.mkdirParents (strip readyState.outputText),
        UiAction.criticalBox (chars "Error")
          (chars "Could not create output directory: " ++ chars "denied"),
        UiAction.logMsg (chars "Error creating directory: " ++ chars "denied") Level.error]) :=
  ⟨by decide,
   (output_dir_create_before_dispatch readyState
     { isDir := false, mkdirError := some (chars "denied") } (chars "denied")
     (by decide) (by decide) (by decide)).1 rfl rfl⟩

/-- C9: with metadata embedding enabled, the EmbedThumbnail postprocessor is added to
the options exactly when the metadata snapshot is present with a nonempty thumbnail
URL; otherwise a warning is logged while the download still proceeds (the FFmpegMetadata
step and the starting message are still produced). -/
theorem embed_thumbnail_iff_available :
    ∀ (url output_path file_format quality tmpl : List Char) (is_playlist uc : Bool)
      (vi : Option VideoInfo) (hooks : List RawProgress) (oc : DlOutcome),
      (PP.embedThumbnail ∈ (download_video url output_path file_format quality is_playlist
          uc tmpl true vi hooks oc).1.postprocessors ↔ thumb_available vi = true) ∧
      PP.ffmpegMetadata ∈ (download_video url output_path file_format quality is_playlist
          uc tmpl true vi hooks oc).1.postprocessors ∧
      (thumb_available vi = false →
        Signal.logMessage
          (chars "Warning: Cannot embed thumbnail as no video info or thumbnail URL was available.")
          Level.warning ∈
          (download_video url output_path file_format quality is_playlist uc tmpl true
            vi hooks oc).2 ∧
        Signal.logMessage (chars "Starting download of " ++ upperChars file_format ++ chars "...")
          Level.info ∈
          (download_video url output_path file_format quality is_playlist uc tmpl true
            vi hooks oc).2) := by
  intro url output_path file_format quality tmpl is_playlist uc vi hooks oc
  refine ⟨?_, ?_, ?_⟩
  · by_cases hta : thumb_available vi <;>
      by_cases hff : file_format = chars "mp3" <;>
        simp [download_video, build_postprocessors, hta, hff]
  · by_cases hta : thumb_available vi <;>
      by_cases hff : file_format = chars "mp3" <;>
        simp [download_video, build_postprocessors, hta, hff]
  · intro hta
    constructor
    · simp [download_video, build_postprocessors, hta]
    · simp [download_video, build_postprocessors, hta]

/-- C9 witness: with no metadata snapshot the warning is logged and the download still
starts. -/
theorem embed_thumbnail_iff_available_witness :
    thumb_available none = false ∧
    Signal.logMessage
      (chars "Warning: Cannot embed thumbnail as no video info or thumbnail URL was available.")
      Level.warning ∈
      (download_video (chars "u") (chars "/o") (chars "mp4") (chars "Best") false false
        (chars "") true none [] DlOutcome.success).2 :=
  ⟨rfl,
   ((embed_thumbnail_iff_available (chars "u") (chars "/o") (chars "mp4") (chars "Best")
     (chars "") false false none [] DlOutcome.success).2.2 rfl).1⟩

theorem opFin_not_mem_progress_hook (d : RawProgress) :
    Signal.operationFinished ∉ progress_hook d := by
  rcases d with ⟨st, db, tb, tbe⟩
  cases st
  · simp only [progress_hook]
    cases h : effectiveTotal ⟨RawStatus.downloading, db, tb, tbe⟩ with
    | none => simp
    | some t => by_cases ht : t = 0 <;> simp [ht]
  · simp [progress_hook]
  · simp [progress_hook]

theorem opFin_not_mem_hookSignals (hooks : List RawProgress) :
    Signal.operationFinished ∉ hookSignals hooks := by
  induction hooks with
  | nil => simp [hookSignals]
  | cons d rest ih =>
    simp only [hookSignals, List.mem_append]
    rintro (h | h)
    · exact opFin_not_mem_progress_hook d h
    · exact ih h

theorem opFin_not_mem_format_selector (ff q : List Char) :
    Signal.operationFinished ∉ (format_selector ff q).2 := by
  unfold format_selector
  split
  · simp
  · split
    · simp
    · split <;> simp

theorem opFin_not_mem_build_postprocessors (ff : List Char) (em : Bool)
    (vi : Option VideoInfo) :
    Signal.operationFinished ∉ (build_postprocessors ff em vi).2 := by
  unfold build_postprocessors
  by_cases hff : ff = chars "mp3" <;> by_cases hem : em <;>
    by_cases hta : thumb_available vi <;> simp [hff, hem, hta]

theorem opFin_not_mem_terminal (oc : DlOutcome) :
    Signal.operationFinished ∉ terminal_signals oc := by
  cases oc <;> simp [terminal_signals]

theorem getLast?_append_opFin (l : List Signal) :
    (l ++ [Signal.operationFinished]).getLast? = some Signal.operationFinished :=
  List.getLast?_concat l

/-- C6: whatever progress callbacks were delivered and however the collaborator call
ended (success, a DownloadError, or any other exception), the trace of download_video
contains exactly one operation_finished signal, it is the last signal of the trace, and
folding the connected slots over the trace leaves the UI enabled (the Idle
presentation) from any starting state. -/
theorem download_terminal_unique_and_last :
    ∀ (url output_path file_format quality tmpl : List Char) (is_playlist uc em : Bool)
      (vi : Option VideoInfo) (hooks : List RawProgress) (oc : DlOutcome) (s : AppState),
      (download_video url output_path file_format quality is_playlist uc tmpl em
        vi hooks oc).2.count Signal.operationFinished = 1 ∧
      (download_video url output_path file_format quality is_playlist uc tmpl em
        vi hooks oc).2.getLast? = some Signal.operationFinished ∧
      ((download_video url output_path file_format quality is_playlist uc tmpl em
        vi hooks oc).2.foldl applySignal s).uiEnabled = true := by
  intro url output_path file_format quality tmpl is_playlist uc em vi hooks oc s
  have h1 := List.count_eq_zero.mpr (opFin_not_mem_format_selector file_format quality)
  have h2 := List.count_eq_zero.mpr (opFin_not_mem_build_postprocessors file_format em vi)
  have h3 := List.count_eq_zero.mpr (opFin_not_mem_hookSignals hooks)
  have h4 := List.count_eq_zero.mpr (opFin_not_mem_terminal oc)
  refine ⟨?_, ?_, ?_⟩
  · simp [download_video, List.count_append, h1, h2, h3, h4]
  · simp only [download_video, ← List.append_assoc]
    exact getLast?_append_opFin _
  · simp only [download_video, ← List.append_assoc, List.foldl_append]
    simp [applySignal]

theorem colon_not_mem_hours : ∀ h : Nat, h < 24 → ':' ∉ natToChars h := by decide

theorem colon_not_mem_pad2 : ∀ m : Nat, m < 60 → ':' ∉ pad2 m := by decide

theorem natToChars_eq_zero_chars : ∀ h : Nat, h < 24 → (natToChars h = chars "0" ↔ h = 0) := by
  decide

theorem splitColon_append (a b : List Char) (ha : ':' ∉ a) :
    splitColon (a ++ ':' :: b) = a :: splitColon b := by
  induction a with
  | nil => simp [splitColon]
  | cons c cs ih =>
    have hc : ¬(c = ':') := fun h => ha (h ▸ List.mem_cons_self c cs)
    have hcs : ':' ∉ cs := fun h => ha (List.mem_cons_of_mem c h)
    simp only [List.cons_append, splitColon, if_neg hc, List.append_eq, ih hcs]

theorem splitColon_no_colon (a : List Char) (ha : ':' ∉ a) : splitColon a = [a] := by
  induction a with
  | nil => rfl
  | cons c cs ih =>
    have hc : ¬(c = ':') := fun h => ha (h ▸ List.mem_cons_self c cs)
    have hcs : ':' ∉ cs := fun h => ha (List.mem_cons_of_mem c h)
    simp only [splitColon, if_neg hc, ih hcs]

theorem intercalate_colon_two (a b : List Char) :
    List.intercalate (chars ":") [a, b] = a ++ ':' :: b := by
  have h : chars ":" = [':'] := rfl
  rw [h]
  simp [List.intercalate, List.intersperse]

/-- C10: a missing duration displays as N/A; for a duration below one day the display is
the H:MM:SS rendering with a single leading zero-hours component stripped; 83 seconds
renders as 01:23 and 5025 seconds as 1:23:45. -/
theorem duration_display_characterization :
    duration_display none = chars "N/A" ∧
    (∀ n : Nat, n < 86400 → duration_display (some n) = hms_render_spec n) ∧
    duration_display (some 83) = chars "01:23" ∧
    duration_display (some 5025) = chars "1:23:45" := by
  refine ⟨rfl, ?_, by decide, by decide⟩
  intro n hn
  have hd : n / 86400 = 0 := Nat.div_eq_of_lt hn
  have hr : n % 86400 = n := Nat.mod_eq_of_lt hn
  have hh : n / 3600 < 24 := by omega
  have hm : n % 3600 / 60 < 60 := by omega
  have hs2 : n % 60 < 60 := by omega
  have ht : timedelta_str n =
      natToChars (n / 3600) ++ ':' :: (pad2 (n % 3600 / 60) ++ ':' :: pad2 (n % 60)) := by
    simp [timedelta_str, hd, hr]
  have hsp : splitColon (timedelta_str n) =
      [natToChars (n / 3600), pad2 (n % 3600 / 60), pad2 (n % 60)] := by
    rw [ht, splitColon_append _ _ (colon_not_mem_hours _ hh),
      splitColon_append _ _ (colon_not_mem_pad2 _ hm),
      splitColon_no_colon _ (colon_not_mem_pad2 _ hs2)]
  simp only [duration_display, hsp]
  by_cases hz : n / 3600 = 0
  · have h0 : natToChars (n / 3600) = chars "0" := (natToChars_eq_zero_chars _ hh).mpr hz
    rw [if_pos ⟨rfl, by simp [h0]⟩]
    simp only [List.drop, intercalate_colon_two]
    simp [hms_render_spec, hz]
  · have h0 : ¬(natToChars (n / 3600) = chars "0") :=
      fun h => hz ((natToChars_eq_zero_chars _ hh).mp h)
    rw [if_neg (fun hand => h0 (by simpa using hand.2))]
    rw [ht]
    simp [hms_render_spec, hz]

/-- C10 witness: 83 seconds is below one day and its display agrees with the stripped
H:MM:SS rendering. -/
theorem duration_display_characterization_witness :
    83 < 86400 ∧ duration_display (some 83) = hms_render_spec 83 :=
  ⟨by decide, duration_display_characterization.2.1 83 (by decide)⟩

end YtApp
